import Mathlib

/-!
Shallow embedding of the rust-otel-connected-lambdas repository: three AWS
Lambda functions (read-function, post-function, handle-change-function) that
thread a W3C trace context across an HTTP hop and a queue hop.

External effects (HTTP calls, SQS send, clock, UUID generation, environment)
are passed in as explicit arguments; panics (Rust unwrap/expect) are modelled
as Option.none, and fallible startup (expect on env vars) as Except.
-/

/-! ### Hexadecimal encoding helpers (lowercase, fixed width) -/

/-- Lowercase hexadecimal digit for a value below 16. -/
def hexDigitChar (n : Nat) : Char :=
  if n < 10 then Char.ofNat (48 + n) else Char.ofNat (87 + n)

/-- Value of a lowercase or uppercase hexadecimal digit character. -/
def hexCharVal (c : Char) : Option Nat :=
  if 48 ≤ c.toNat ∧ c.toNat ≤ 57 then some (c.toNat - 48)
  else if 97 ≤ c.toNat ∧ c.toNat ≤ 102 then some (c.toNat - 87)
  else if 65 ≤ c.toNat ∧ c.toNat ≤ 70 then some (c.toNat - 55)
  else none

/-- Fixed-width big-endian hexadecimal rendering of a natural number. -/
def toHex : Nat → Nat → List Char
  | 0, _ => []
  | w + 1, n => toHex w (n / 16) ++ [hexDigitChar (n % 16)]

/-- Accumulator-style hexadecimal parse; fails on any non-hex character. -/
def fromHexAux : Nat → List Char → Option Nat
  | acc, [] => some acc
  | acc, c :: cs =>
    match hexCharVal c with
    | some d => fromHexAux (acc * 16 + d) cs
    | none => none

/-- Parse a hexadecimal field of exactly the given width. -/
def parseHexExact (w : Nat) (l : List Char) : Option Nat :=
  if l.length = w then fromHexAux 0 l else none

/-- Split a character list on the dash separator of the traceparent format. -/
def splitDash : List Char → List (List Char)
  | [] => [[]]
  | c :: cs =>
    if c = '-' then [] :: splitDash cs
    else
      match splitDash cs with
      | [] => [[c]]
      | p :: ps => (c :: p) :: ps

/-! ### Trace context data model (spec section 3) -/

/-- Modelled from the spec: a TraceContext is a trace identifier, a span
identifier and trace flags (section 3); the concrete type lives in the
external opentelemetry crates, not in this repository. -/
structure TraceContext where
  traceId : Nat
  spanId : Nat
  flags : Nat
deriving DecidableEq, Repr

/-- A valid context: nonzero 128-bit trace id, nonzero 64-bit span id,
one byte of flags. -/
def TraceContext.valid (c : TraceContext) : Prop :=
  c.traceId ≠ 0 ∧ c.spanId ≠ 0 ∧
  c.traceId < 2 ^ 128 ∧ c.spanId < 2 ^ 64 ∧ c.flags < 2 ^ 8

/-- Modelled from the spec: two contexts are equal iff their trace identifier
and span identifier match (section 3). -/
def contextEq (a b : TraceContext) : Prop :=
  a.traceId = b.traceId ∧ a.spanId = b.spanId

/-! ### Carrier (spec section 3): ordered string-to-string mapping -/

/-- A carrier is an ordered mapping from string keys to string values. -/
abbrev Carrier := List (String × String)

def emptyCarrier : Carrier := []

/-- Set a key (replace if present, append otherwise). -/
def carrierSet (c : Carrier) (k v : String) : Carrier :=
  if c.any (fun kv => kv.1 = k) then
    c.map (fun kv => if kv.1 = k then (k, v) else kv)
  else c ++ [(k, v)]

/-- Read a key; unknown keys are ignored (return none). -/
def carrierGet (c : Carrier) (k : String) : Option String :=
  (c.find? (fun kv => kv.1 = k)).map (fun kv => kv.2)

namespace TraceContextPropagator

/-- Canonical string encoding version-traceid-spanid-flags (spec sections 3
and 6), version 00, lowercase hex. -/
def encodeTraceparent (c : TraceContext) : String :=
  ⟨toHex 2 0 ++ '-' :: (toHex 32 c.traceId ++ '-' :: (toHex 16 c.spanId
    ++ '-' :: toHex 2 c.flags))⟩

/-- Modelled from the spec: inject (section 4.1) — if the context is present,
write its canonical string encoding into the traceparent key of the carrier;
if absent, leave the carrier unmodified. The concrete implementation is the
TraceContextPropagator of the external opentelemetry-sdk crate. -/
def inject_context (ctx : Option TraceContext) (carrier : Carrier) : Carrier :=
  match ctx with
  | some c => carrierSet carrier "traceparent" (encodeTraceparent c)
  | none => carrier

/-- Decode one traceparent header value: four dash-separated hex fields of
widths 2, 32, 16, 2; version ff rejected; zero trace or span id rejected.
Any malformed value yields none (the absent context). -/
def extractTraceparent (s : String) : Option TraceContext :=
  match splitDash s.data with
  | [v, t, sp, f] =>
    match parseHexExact 2 v with
    | none => none
    | some version =>
      if version = 255 then none
      else
        match parseHexExact 32 t, parseHexExact 16 sp, parseHexExact 2 f with
        | some tid, some sid, some flags =>
          if tid = 0 ∨ sid = 0 then none else some ⟨tid, sid, flags⟩
        | _, _, _ => none
  | _ => none

/-- Modelled from the spec: extract (section 4.1) — read the traceparent key;
missing or malformed yields the absent (root) context, never an error. -/
def extract (carrier : Carrier) : Option TraceContext :=
  match carrierGet carrier "traceparent" with
  | some v => extractTraceparent v
  | none => none

end TraceContextPropagator

/-! ### Minimal JSON value model (what serde_json produces from a body) -/

/-- JSON value AST; the generic text-to-AST step is the external serde_json
crate, so handlers below take records at this level: none stands for a body
that is absent or is not syntactically valid JSON. -/
inductive Json where
  | str : String → Json
  | num : Int → Json
  | bool : Bool → Json
  | null : Json
  | arr : List Json → Json
  | obj : List (String × Json) → Json
deriving Repr

/-- First binding of a key in a JSON object field list. -/
def jsonLookup (k : String) (fields : List (String × Json)) : Option Json :=
  (fields.find? (fun kv => kv.1 = k)).map (fun kv => kv.2)

def Json.asStr : Json → Option String
  | .str s => some s
  | _ => none

def Json.asInt : Json → Option Int
  | .num n => some n
  | _ => none

/-! ### MessageBody: the queue envelope (same fields in both lambdas) -/

/-- struct MessageBody of post-function (Serialize) and of
handle-change-function (Deserialize): timestamp, description, id,
correlation_id, all required, no serde defaults. -/
structure MessageBody where
  timestamp : Int
  description : String
  id : String
  correlation_id : String
deriving DecidableEq, Repr

/-- Deserialization as generated by derive(Deserialize) on the declared
struct: every field is required (correlation_id has no default), unknown
fields are ignored, and a missing or wrongly-typed field is an error. -/
def MessageBody.fromJson : Json → Option MessageBody
  | .obj fields =>
    match jsonLookup "timestamp" fields, jsonLookup "description" fields,
        jsonLookup "id" fields, jsonLookup "correlation_id" fields with
    | some jt, some jd, some ji, some jc =>
      match jt.asInt, jd.asStr, ji.asStr, jc.asStr with
      | some t, some d, some i, some c => some ⟨t, d, i, c⟩
      | _, _, _, _ => none
    | _, _, _, _ => none
  | _ => none

/-- Serialization as generated by derive(Serialize): declared field order. -/
def MessageBody.toJson (m : MessageBody) : Json :=
  .obj [("timestamp", .num m.timestamp), ("description", .str m.description),
    ("id", .str m.id), ("correlation_id", .str m.correlation_id)]

/-- The Display impl of handle-change-function. -/
def MessageBody.display (m : MessageBody) : String :=
  "(Timestamp)=" ++ toString m.timestamp ++ "|(Description)=" ++ m.description
    ++ "|(Id)=" ++ m.id ++ "|(CorrelationId)=" ++ m.correlation_id

/-! ### read-function (src/lambdas/read-function/src/main.rs) -/

namespace ReadFn

/-- struct AddedContext of read-function. -/
structure AddedContext where
  timestamp : Int
  description : String
deriving DecidableEq, Repr

/-- fn generate_context, with the clock passed in for Utc::now. -/
def generate_context (now : Int) : AddedContext :=
  ⟨now, "From Read"⟩

/-- derive(Serialize) on AddedContext, declared field order. -/
def AddedContext.toJson (a : AddedContext) : Json :=
  .obj [("timestamp", .num a.timestamp), ("description", .str a.description)]

/-- Case-insensitive lookup, as http::HeaderMap::get performs. -/
def headerGet (headers : List (String × String)) (name : String) :
    Option String :=
  (headers.find? (fun kv =>
    kv.1.data.map Char.toLower = name.data.map Char.toLower)).map
    (fun kv => kv.2)

/-- The ApiGatewayProxyResponse fields the handler populates. -/
structure ApiGatewayProxyResponse where
  status_code : Nat
  body : Option Json
  headers : List (String × String)
  is_base64_encoded : Bool
deriving Repr

/-- What one read-function invocation produces: the parent recorded onto the
handler span by set_parent, and the HTTP response. -/
structure ReadOutcome where
  parent : Option TraceContext
  response : ApiGatewayProxyResponse
deriving Repr

/-- fn handler of read-function. The inbound headers and the clock are the
inputs; the unwrap on the absent traceparent header is modelled as none
(a Rust panic aborts the invocation with no response). -/
def handler (headers : List (String × String)) (now : Int) :
    Option ReadOutcome :=
  match headerGet headers "traceparent" with
  | none => none
  | some v =>
    let fields := carrierSet emptyCarrier "traceparent" v
    let context := TraceContextPropagator.extract fields
    let s := generate_context now
    some ⟨context,
      ⟨200, some (AddedContext.toJson s),
        [("Content-Type", "application/json")], false⟩⟩

end ReadFn

/-! ### post-function (src/lambdas/post-function/src/main.rs) -/

namespace PostFn

/-- struct LambdaResponse: the parsed body of the downstream HTTP call. -/
structure LambdaResponse where
  timestamp : Int
  description : String
deriving DecidableEq, Repr

/-- The http crate's HeaderName token characters (HeaderName::try_from
succeeds exactly on nonempty strings of these; uppercase letters are
accepted and lowercased). -/
def isHeaderNameChar (c : Char) : Bool :=
  (97 ≤ c.toNat && c.toNat ≤ 122) || (48 ≤ c.toNat && c.toNat ≤ 57) ||
  (65 ≤ c.toNat && c.toNat ≤ 90) ||
  c.toNat = 33 || c.toNat = 35 || c.toNat = 36 || c.toNat = 37 ||
  c.toNat = 38 || c.toNat = 39 || c.toNat = 42 || c.toNat = 43 ||
  c.toNat = 45 || c.toNat = 46 || c.toNat = 94 || c.toNat = 95 ||
  c.toNat = 96 || c.toNat = 124 || c.toNat = 126

def isValidHeaderName (s : String) : Bool :=
  !s.isEmpty && s.data.all isHeaderNameChar

/-- HeaderValue::try_from accepts visible characters, space and tab. -/
def isValidHeaderValueChar (c : Char) : Bool :=
  c.toNat = 9 || (32 ≤ c.toNat && c.toNat ≠ 127)

def isValidHeaderValue (s : String) : Bool :=
  s.data.all isValidHeaderValueChar

/-- The header-building map of the handler: each carrier entry goes through
HeaderName::try_from and HeaderValue::try_from, each followed by unwrap; a
failing conversion is a panic (none). -/
def build_headers : List (String × String) → Option (List (String × String))
  | [] => some []
  | kv :: rest =>
    if isValidHeaderName kv.1 && isValidHeaderValue kv.2 then
      match build_headers rest with
      | none => none
      | some hs => some (kv :: hs)
    else none

/-- fn post_message, propagation part: overwrite the payload's
correlation_id with the captured traceparent, or with the empty string when
none was captured; this is the message body handed to send_message. -/
def post_message_payload (payload : MessageBody) (trace_parent : Option String) :
    MessageBody :=
  match trace_parent with
  | some x => { payload with correlation_id := x }
  | none => { payload with correlation_id := "" }

/-- fn post_message: computes the outgoing body, then the send either
succeeds or its SdkError propagates through the question-mark operator. The
send outcome is an input (the SQS client is external). -/
def post_message (payload : MessageBody) (trace_parent : Option String)
    (sendResult : Except String Unit) : Except String MessageBody :=
  match sendResult with
  | .ok _ => .ok (post_message_payload payload trace_parent)
  | .error e => .error e

/-- Everything one post-function invocation produces. none in headers or
response stands for a panic on that path; published is the message body
handed to send_message (if that point is reached). -/
structure HandlerResult where
  trace_parent : Option String
  headers : Option (List (String × String))
  published : Option MessageBody
  response : Option (Nat × String)
deriving DecidableEq, Repr

/-- fn handler of post-function. Inputs: the current span's context, the
downstream HTTP outcome (none collapses both a transport error and a JSON
parse error — each only logs), the generated UUID, and the SQS send outcome.
The source binds the post_message result as a discarded underscore and
always builds the 200 response. -/
def handler (ctx : Option TraceContext) (httpResult : Option LambdaResponse)
    (newId : String) (sendResult : Except String Unit) : HandlerResult :=
  let fields := TraceContextPropagator.inject_context ctx emptyCarrier
  let trace_parent := carrierGet fields "traceparent"
  match build_headers fields with
  | none => ⟨trace_parent, none, none, none⟩
  | some hs =>
    match httpResult with
    | some b =>
      let payload : MessageBody :=
        ⟨b.timestamp, b.description, newId, ""⟩
      let _discarded := post_message payload trace_parent sendResult
      ⟨trace_parent, some hs,
        some (post_message_payload payload trace_parent),
        some (200, "application/json")⟩
    | none => ⟨trace_parent, some hs, none, some (200, "application/json")⟩

/-- expect on an environment variable: the process aborts at startup with
the variable's name in the message when it is absent. -/
def env_var (env : String → Option String) (name : String) :
    Except String String :=
  match env name with
  | some v => .ok v
  | none => .error (name ++ " is required")

/-- fn init_datadog_pipeline: reads AGENT_ADDRESS then FUNCTION_NAME; the
result models the configured tracer (service name, agent endpoint). -/
def init_datadog_pipeline (env : String → Option String) :
    Except String (String × String) := do
  let agent ← env_var env "AGENT_ADDRESS"
  let service ← env_var env "FUNCTION_NAME"
  .ok (service, "http://" ++ agent ++ ":8126")

/-- The configuration main assembles before run(service_fn(...)) starts
serving; reaching it is what "accepts invocations" means. -/
structure ServingConfig where
  tracer : String × String
  service_url : String
  queue_url : String
deriving DecidableEq, Repr

/-- fn main of post-function up to run(...): tracer init, then API_URL and
QUEUE_URL; any absent variable aborts startup before serving begins. -/
def main (env : String → Option String) : Except String ServingConfig := do
  let tracer ← init_datadog_pipeline env
  let service_url ← env_var env "API_URL"
  let queue_url ← env_var env "QUEUE_URL"
  .ok ⟨tracer, service_url, queue_url⟩

end PostFn

/-! ### handle-change-function (src/lambdas/handle-change-function/src/main.rs) -/

namespace HandleChange

/-- What a span is parented on: an extracted trace context (set_parent), or
the span that was current when it was created (the implicit parent of
info_span!). -/
inductive SpanParent where
  | fromContext : Option TraceContext → SpanParent
  | fromSpan : Nat → SpanParent
deriving DecidableEq, Repr

/-- The tracing-relevant state of one span. -/
structure SpanData where
  name : String
  parent : SpanParent
  kindAttr : Option String
deriving DecidableEq, Repr

/-- Tracing state of one consumer invocation: span ids are allocated in
order; current is the id of the span Span::current() returns. -/
structure ConsumerState where
  nextId : Nat
  current : Nat
  spans : List (Nat × SpanData)
  logs : List String
deriving DecidableEq, Repr

/-- State on entry to the instrumented handler: the Handler span (id 0) is
open and current. -/
def initState : ConsumerState :=
  ⟨1, 0, [(0, ⟨"Handler", .fromContext none, none⟩)], []⟩

def updateSpan (st : ConsumerState) (sid : Nat) (f : SpanData → SpanData) :
    ConsumerState :=
  { st with spans := st.spans.map (fun p => if p.1 = sid then (p.1, f p.2) else p) }

/-- Parent recorded on a given span id. -/
def spanParentOf (st : ConsumerState) (sid : Nat) : Option SpanParent :=
  (st.spans.find? (fun p => p.1 = sid)).map (fun p => p.2.parent)

/-- The body of the for_each closure, for one successfully parsed record:
build a one-key carrier from correlation_id, extract, call set_parent and
record on Span::current(), log the body, create (and immediately drop,
without entering) the Processing Record span. -/
def processRecord (st : ConsumerState) (m : MessageBody) : ConsumerState :=
  let fields := carrierSet emptyCarrier "traceparent" m.correlation_id
  let context := TraceContextPropagator.extract fields
  let sid := st.current
  let st := updateSpan st sid (fun s => { s with parent := .fromContext context })
  let st := updateSpan st sid (fun s => { s with kindAttr := some "SERVER" })
  let st := { st with logs := st.logs ++ ["(Body)=" ++ m.display] }
  { st with
    spans := st.spans ++ [(st.nextId, ⟨"Processing Record", .fromSpan st.current, none⟩)],
    nextId := st.nextId + 1 }

/-- The for_each loop. Each input record is the serde_json AST of its body
(none: body absent or not valid JSON). Both unwraps — on the body and on the
Envelope parse — are panics, modelled as none for the whole invocation.
Alongside the final state, the returned list records, per processed record,
the id of the span that was current while that record was processed. -/
def consumeRecords (st : ConsumerState) :
    List (Option Json) → Option (ConsumerState × List Nat)
  | [] => some (st, [])
  | r :: rs =>
    match r with
    | none => none
    | some j =>
      match MessageBody.fromJson j with
      | none => none
      | some m =>
        match consumeRecords (processRecord st m) rs with
        | none => none
        | some (stf, ids) => some (stf, st.current :: ids)

/-- fn handler of handle-change-function: iterate the batch from the initial
state; Ok(()) on Rust side carries no per-record information, so the model's
value is the tracing state (none: the invocation panicked and the platform
sees the whole batch as failed). -/
def handler (records : List (Option Json)) : Option (ConsumerState × List Nat) :=
  consumeRecords initState records

/-- The records whose processing completes before the first panic. -/
def processedPrefix : List (Option Json) → List MessageBody
  | [] => []
  | r :: rs =>
    match r >>= MessageBody.fromJson with
    | none => []
    | some m => m :: processedPrefix rs

end HandleChange

/-! ### Helper lemmas about the codec -/

theorem toHex_length (w : Nat) : ∀ n, (toHex w n).length = w := by
  induction w with
  | zero => intro n; rfl
  | succ w ih => intro n; simp [toHex, ih]

theorem hexCharVal_hexDigitChar : ∀ m, m < 16 → hexCharVal (hexDigitChar m) = some m := by
  decide

theorem hexDigitChar_ne_dash : ∀ m, m < 16 → hexDigitChar m ≠ '-' := by
  decide

theorem fromHexAux_append (xs ys : List Char) (acc : Nat) :
    fromHexAux acc (xs ++ ys) =
      (fromHexAux acc xs).bind (fun a => fromHexAux a ys) := by
  induction xs generalizing acc with
  | nil => rfl
  | cons c cs ih =>
    simp only [List.cons_append, fromHexAux]
    cases hexCharVal c with
    | some d => simpa using ih (acc * 16 + d)
    | none => rfl

theorem fromHexAux_toHex : ∀ (w acc n : Nat), n < 16 ^ w →
    fromHexAux acc (toHex w n) = some (acc * 16 ^ w + n) := by
  intro w
  induction w with
  | zero =>
    intro acc n h
    have hn : n = 0 := Nat.lt_one_iff.mp (by simpa using h)
    simp [toHex, fromHexAux, hn]
  | succ w ih =>
    intro acc n h
    have hdiv : n / 16 < 16 ^ w := by
      rw [Nat.div_lt_iff_lt_mul (by norm_num)]
      calc n < 16 ^ (w + 1) := h
        _ = 16 ^ w * 16 := by rw [pow_succ]
    rw [toHex, fromHexAux_append, ih acc (n / 16) hdiv]
    have hmod : n % 16 < 16 := Nat.mod_lt _ (by norm_num)
    simp only [Option.bind, fromHexAux, hexCharVal_hexDigitChar (n % 16) hmod]
    have hdm := Nat.div_add_mod n 16
    congr 1
    have hps : (16 : Nat) ^ (w + 1) = 16 ^ w * 16 := pow_succ 16 w
    nlinarith [hdm, hps]

theorem toHex_mem (w : Nat) : ∀ (n : Nat) (c : Char), c ∈ toHex w n →
    ∃ m, m < 16 ∧ c = hexDigitChar m := by
  induction w with
  | zero => intro n c hc; simp [toHex] at hc
  | succ w ih =>
    intro n c hc
    rw [toHex] at hc
    rcases List.mem_append.mp hc with h | h
    · exact ih _ _ h
    · refine ⟨n % 16, Nat.mod_lt _ (by norm_num), ?_⟩
      simpa using h

theorem toHex_ne_dash (w n : Nat) : ∀ c ∈ toHex w n, c ≠ '-' := by
  intro c hc
  obtain ⟨m, hm, rfl⟩ := toHex_mem w n c hc
  exact hexDigitChar_ne_dash m hm

theorem splitDash_append (a : List Char) :
    ∀ (l p : List Char) (ps : List (List Char)), (∀ c ∈ a, c ≠ '-') →
      splitDash l = p :: ps → splitDash (a ++ l) = (a ++ p) :: ps := by
  induction a with
  | nil => intro l p ps _ hl; simpa using hl
  | cons c cs ih =>
    intro l p ps ha hl
    have hc : c ≠ '-' := ha c (List.mem_cons_self c cs)
    have hcs : ∀ x ∈ cs, x ≠ '-' := fun x hx => ha x (List.mem_cons_of_mem c hx)
    have h2 := ih l p ps hcs hl
    simp [splitDash, hc, h2]

theorem splitDash_nodash (a : List Char) (ha : ∀ c ∈ a, c ≠ '-') :
    splitDash a = [a] := by
  have h := splitDash_append a [] [] [] ha rfl
  simpa using h

theorem parseHexExact_toHex (w n : Nat) (h : n < 16 ^ w) :
    parseHexExact w (toHex w n) = some n := by
  unfold parseHexExact
  rw [toHex_length, if_pos rfl, fromHexAux_toHex w 0 n h]
  simp

theorem encodeTraceparent_data (c : TraceContext) :
    (TraceContextPropagator.encodeTraceparent c).data =
      toHex 2 0 ++ '-' :: (toHex 32 c.traceId ++ '-' :: (toHex 16 c.spanId
        ++ '-' :: toHex 2 c.flags)) := rfl

theorem splitDash_cons_dash (l : List Char) :
    splitDash ('-' :: l) = [] :: splitDash l := rfl

theorem splitDash_encode (c : TraceContext) :
    splitDash (TraceContextPropagator.encodeTraceparent c).data =
      [toHex 2 0, toHex 32 c.traceId, toHex 16 c.spanId, toHex 2 c.flags] := by
  rw [encodeTraceparent_data]
  have h4 : splitDash (toHex 2 c.flags) = [toHex 2 c.flags] :=
    splitDash_nodash _ (toHex_ne_dash 2 c.flags)
  have h3 : splitDash ('-' :: toHex 2 c.flags) = [] :: [toHex 2 c.flags] := by
    rw [splitDash_cons_dash, h4]
  have h3b := splitDash_append (toHex 16 c.spanId) _ _ _
    (toHex_ne_dash 16 c.spanId) h3
  rw [List.append_nil] at h3b
  have h2 : splitDash ('-' :: (toHex 16 c.spanId ++ '-' :: toHex 2 c.flags)) =
      [] :: [toHex 16 c.spanId, toHex 2 c.flags] := by
    rw [splitDash_cons_dash, h3b]
  have h2b := splitDash_append (toHex 32 c.traceId) _ _ _
    (toHex_ne_dash 32 c.traceId) h2
  rw [List.append_nil] at h2b
  have h1 : splitDash ('-' :: (toHex 32 c.traceId ++ '-' :: (toHex 16 c.spanId
      ++ '-' :: toHex 2 c.flags))) =
      [] :: [toHex 32 c.traceId, toHex 16 c.spanId, toHex 2 c.flags] := by
    rw [splitDash_cons_dash, h2b]
  have h1b := splitDash_append (toHex 2 0) _ _ _ (toHex_ne_dash 2 0) h1
  rw [List.append_nil] at h1b
  exact h1b

theorem extractTraceparent_encode (c : TraceContext) (h : c.valid) :
    TraceContextPropagator.extractTraceparent
      (TraceContextPropagator.encodeTraceparent c) = some c := by
  obtain ⟨ht0, hs0, htb, hsb, hfb⟩ := h
  have htb' : c.traceId < 16 ^ 32 := by
    have e : (16 : Nat) ^ 32 = 2 ^ 128 := by norm_num
    rw [e]; exact htb
  have hsb' : c.spanId < 16 ^ 16 := by
    have e : (16 : Nat) ^ 16 = 2 ^ 64 := by norm_num
    rw [e]; exact hsb
  have hfb' : c.flags < 16 ^ 2 := by
    have e : (16 : Nat) ^ 2 = 2 ^ 8 := by norm_num
    rw [e]; exact hfb
  have hz : (0 : Nat) < 16 ^ 2 := by norm_num
  unfold TraceContextPropagator.extractTraceparent
  rw [splitDash_encode]
  simp only [parseHexExact_toHex 2 0 hz, parseHexExact_toHex 32 _ htb',
    parseHexExact_toHex 16 _ hsb', parseHexExact_toHex 2 _ hfb']
  have hne : ¬(c.traceId = 0 ∨ c.spanId = 0) := by
    rintro (h | h)
    · exact ht0 h
    · exact hs0 h
  simp [hne]

/-! ### Header validity of the injected pairs -/

theorem hexDigitChar_valid_value : ∀ m, m < 16 →
    PostFn.isValidHeaderValueChar (hexDigitChar m) = true := by
  decide

theorem dash_valid_value : PostFn.isValidHeaderValueChar '-' = true := by
  decide

theorem encode_valid_header_value (c : TraceContext) :
    PostFn.isValidHeaderValue (TraceContextPropagator.encodeTraceparent c) = true := by
  unfold PostFn.isValidHeaderValue
  rw [List.all_eq_true]
  intro x hx
  have hx2 : x ∈ toHex 2 0 ++ '-' :: (toHex 32 c.traceId ++ '-' :: (toHex 16 c.spanId
      ++ '-' :: toHex 2 c.flags)) := hx
  simp only [List.mem_append, List.mem_cons] at hx2
  rcases hx2 with h | h | h | h | h | h | h
  · obtain ⟨m, hm, rfl⟩ := toHex_mem _ _ _ h
    exact hexDigitChar_valid_value m hm
  · rw [h]; exact dash_valid_value
  · obtain ⟨m, hm, rfl⟩ := toHex_mem _ _ _ h
    exact hexDigitChar_valid_value m hm
  · rw [h]; exact dash_valid_value
  · obtain ⟨m, hm, rfl⟩ := toHex_mem _ _ _ h
    exact hexDigitChar_valid_value m hm
  · rw [h]; exact dash_valid_value
  · obtain ⟨m, hm, rfl⟩ := toHex_mem _ _ _ h
    exact hexDigitChar_valid_value m hm

theorem traceparent_valid_header_name :
    PostFn.isValidHeaderName "traceparent" = true := by
  decide

/-! ### Concrete inputs used in closed theorems -/

/-- The trace context of the end-to-end lineage example of spec section 8. -/
def c0 : TraceContext :=
  ⟨0x4bf92f3577b34da6a3ce929d0e0e4736, 0x00f067aa0ba902b7, 1⟩

def goodBodyJson : Json :=
  .obj [("timestamp", .num 1700000000000), ("description", .str "hello"),
    ("id", .str "abc-123"),
    ("correlation_id",
      .str "00-4bf92f3577b34da6a3ce929d0e0e4736-00f067aa0ba902b7-01")]

def bodyJson2 : Json :=
  .obj [("timestamp", .num 1700000000001), ("description", .str "world"),
    ("id", .str "abc-124"),
    ("correlation_id",
      .str "00-11111111111111111111111111111111-2222222222222222-01")]

def emptyCidJson : Json :=
  .obj [("timestamp", .num 1), ("description", .str "x"), ("id", .str "id-1"),
    ("correlation_id", .str "")]

def missingCidJson : Json :=
  .obj [("timestamp", .num 1), ("description", .str "x"), ("id", .str "id-1")]

def garbageHeaders : List (String × String) := [("traceparent", "garbage")]

def httpOk : PostFn.LambdaResponse := ⟨1700000000000, "downstream"⟩

/-- An environment with every variable set except QUEUE_URL. -/
def envMissingQueue : String → Option String := fun name =>
  if name = "QUEUE_URL" then none else some "value"

/-! ### Claim theorems -/

/-- C6: for every valid TraceContext C, injecting C into a fresh empty
carrier with the codec's inject and then extracting yields a context equal
to C, equality being agreement of trace identifier and span identifier. -/
theorem codec_round_trip (c : TraceContext) (h : c.valid) :
    ∃ c2, TraceContextPropagator.extract
        (TraceContextPropagator.inject_context (some c) emptyCarrier) = some c2 ∧
      contextEq c2 c := by
  refine ⟨c, ?_, rfl, rfl⟩
  have h1 : TraceContextPropagator.inject_context (some c) emptyCarrier =
      [("traceparent", TraceContextPropagator.encodeTraceparent c)] := rfl
  rw [h1]
  have h2 : carrierGet
      [("traceparent", TraceContextPropagator.encodeTraceparent c)]
      "traceparent" = some (TraceContextPropagator.encodeTraceparent c) := rfl
  unfold TraceContextPropagator.extract
  rw [h2]
  exact extractTraceparent_encode c h

/-- Witness for codec_round_trip at the lineage example context of spec
section 8. -/
theorem codec_round_trip_witness :
    c0.valid ∧ ∃ c2, TraceContextPropagator.extract
        (TraceContextPropagator.inject_context (some c0) emptyCarrier) = some c2 ∧
      contextEq c2 c0 := by
  have hv : c0.valid := by
    refine ⟨?_, ?_, ?_, ?_, ?_⟩ <;> decide
  exact ⟨hv, codec_round_trip c0 hv⟩

/-- C1: refuted at the concrete empty header map — the read-function handler
unwraps the absent traceparent header and panics, returning no response;
only the malformed-value half of the claim holds (it degrades to a root
parent and still returns status 200). -/
theorem readfn_missing_traceparent_panics :
    ReadFn.handler [] 0 = none ∧
    (ReadFn.handler garbageHeaders 0).map
      (fun o => (o.parent, o.response.status_code)) = some (none, 200) := by
  exact ⟨rfl, rfl⟩

/-- C2: refuted at a concrete two-record batch — with record 0 malformed and
record 1 a valid Envelope, the consumer handler panics for the whole batch
(none): it processes zero records instead of the other N minus 1, and
reports no per-record failure set. -/
theorem consumer_malformed_record_aborts_batch :
    HandleChange.handler [none, some goodBodyJson] = none ∧
    HandleChange.processedPrefix [none, some goodBodyJson] = [] ∧
    (MessageBody.fromJson goodBodyJson).isSome = true := by
  exact ⟨rfl, rfl, rfl⟩

/-- C4: a record whose correlation_id is the empty string is processed and
its span is parented on the absent (root) context, but a record whose
correlation_id field is omitted fails serde deserialization and the unwrap
panics the invocation — refuting the omitted-field half of the claim. -/
theorem consumer_empty_cid_ok_missing_cid_panics :
    (HandleChange.handler [some emptyCidJson]).map
      (fun p => HandleChange.spanParentOf p.1 0) =
        some (some (.fromContext none)) ∧
    HandleChange.handler [some missingCidJson] = none := by
  exact ⟨rfl, rfl⟩

/-- C5: refuted at a concrete two-record batch — both records are processed
under the same current span (the Handler span, id 0): the per-record
current-span list is [0, 0], each record's Processing Record span is
parented on that same span 0, and after the batch the shared span's parent
has been overwritten to the context extracted from the second record. -/
theorem consumer_records_share_current_span :
    (HandleChange.handler [some goodBodyJson, some bodyJson2]).map
      (fun p => (p.2, HandleChange.spanParentOf p.1 0,
        HandleChange.spanParentOf p.1 1, HandleChange.spanParentOf p.1 2)) =
      some ([0, 0],
        some (.fromContext (some ⟨0x11111111111111111111111111111111,
          0x2222222222222222, 1⟩)),
        some (.fromSpan 0), some (.fromSpan 0)) := by
  rfl

/-- C3: refuted at a concrete invocation — post_message itself propagates
the SQS send error through the question-mark operator, but the handler binds
its result to a discarded underscore and still answers HTTP 200, so the
publish failure never reaches the handler's caller. -/
theorem postfn_publish_error_swallowed :
    (PostFn.handler (some c0) (some httpOk) "id-9"
        (.error "SendMessageError")).response =
      some (200, "application/json") ∧
    PostFn.post_message ⟨1700000000000, "downstream", "id-9", ""⟩
        (some (TraceContextPropagator.encodeTraceparent c0))
        (.error "SendMessageError") = .error "SendMessageError" := by
  exact ⟨rfl, rfl⟩

/-- C7: the published envelope's correlation_id equals the captured
traceparent when one was captured and the empty string otherwise, both in
the record and in its serialized object, and the correlation_id passed in
with the payload never reaches the outgoing message. -/
theorem post_message_sets_correlation_id (payload : MessageBody)
    (tp : Option String) (c : String) :
    (PostFn.post_message_payload payload tp).correlation_id =
      (match tp with | some x => x | none => "") ∧
    MessageBody.toJson (PostFn.post_message_payload payload tp) =
      .obj [("timestamp", .num payload.timestamp),
        ("description", .str payload.description), ("id", .str payload.id),
        ("correlation_id", .str (match tp with | some x => x | none => ""))] ∧
    PostFn.post_message_payload { payload with correlation_id := c } tp =
      PostFn.post_message_payload payload tp := by
  cases tp <;> simp [PostFn.post_message_payload, MessageBody.toJson]

/-- Startup of post-function as one case split over the four variables. -/
theorem postfn_main_cases (env : String → Option String) :
    PostFn.main env =
      match env "AGENT_ADDRESS" with
      | none => .error "AGENT_ADDRESS is required"
      | some a =>
        match env "FUNCTION_NAME" with
        | none => .error "FUNCTION_NAME is required"
        | some f =>
          match env "API_URL" with
          | none => .error "API_URL is required"
          | some u =>
            match env "QUEUE_URL" with
            | none => .error "QUEUE_URL is required"
            | some q => .ok ⟨(f, "http://" ++ a ++ ":8126"), u, q⟩ := by
  unfold PostFn.main PostFn.init_datadog_pipeline PostFn.env_var
  cases env "AGENT_ADDRESS" <;> cases env "FUNCTION_NAME" <;>
    cases env "API_URL" <;> cases env "QUEUE_URL" <;> rfl

/-- C8: absence of any of AGENT_ADDRESS, FUNCTION_NAME, API_URL or QUEUE_URL
aborts post-function startup with a descriptive error before run(...) begins
serving; in particular a missing QUEUE_URL alone yields the error message
QUEUE_URL is required, and no serving configuration is ever produced. -/
theorem postfn_config_missing_fatal (env : String → Option String) :
    ((env "AGENT_ADDRESS" = none ∨ env "FUNCTION_NAME" = none ∨
        env "API_URL" = none ∨ env "QUEUE_URL" = none) →
      ∃ msg, PostFn.main env = .error msg) ∧
    (env "QUEUE_URL" = none → ∀ cfg, PostFn.main env ≠ .ok cfg) ∧
    ((env "AGENT_ADDRESS").isSome → (env "FUNCTION_NAME").isSome →
      (env "API_URL").isSome → env "QUEUE_URL" = none →
      PostFn.main env = .error "QUEUE_URL is required") := by
  rw [postfn_main_cases]
  cases env "AGENT_ADDRESS" <;> cases env "FUNCTION_NAME" <;>
    cases env "API_URL" <;> cases env "QUEUE_URL" <;>
    refine ⟨?_, ?_, ?_⟩ <;> simp

/-- Witness: with every variable set except QUEUE_URL, startup aborts with
the descriptive QUEUE_URL error and never reaches a serving configuration. -/
theorem postfn_config_missing_fatal_witness :
    (∃ msg, PostFn.main envMissingQueue = .error msg) ∧
    (∀ cfg, PostFn.main envMissingQueue ≠ .ok cfg) ∧
    PostFn.main envMissingQueue = .error "QUEUE_URL is required" := by
  obtain ⟨h1, h2, h3⟩ := postfn_config_missing_fatal envMissingQueue
  exact ⟨h1 (Or.inr (Or.inr (Or.inr rfl))), h2 rfl, h3 rfl rfl rfl rfl⟩

/-- C9: post_message rewrites only correlation_id — timestamp, description
and id of the outgoing message equal those of the input payload, for every
payload and every captured traceparent. -/
theorem post_message_preserves_business_fields (payload : MessageBody)
    (tp : Option String) :
    (PostFn.post_message_payload payload tp).timestamp = payload.timestamp ∧
    (PostFn.post_message_payload payload tp).description =
      payload.description ∧
    (PostFn.post_message_payload payload tp).id = payload.id := by
  cases tp <;> exact ⟨rfl, rfl, rfl⟩

/-- C10: the header-building loop of the post-function handler never panics:
whatever context the propagator injects (including none), every produced key
passes HeaderName conversion and every produced value passes HeaderValue
conversion, so the handler always obtains its header set. -/
theorem postfn_header_unwraps_never_panic (ctx : Option TraceContext)
    (httpResult : Option PostFn.LambdaResponse) (newId : String)
    (sendResult : Except String Unit) :
    (PostFn.handler ctx httpResult newId sendResult).headers.isSome = true := by
  cases ctx with
  | none => cases httpResult <;> rfl
  | some c =>
    unfold PostFn.handler
    have hf : TraceContextPropagator.inject_context (some c) emptyCarrier =
        [("traceparent", TraceContextPropagator.encodeTraceparent c)] := rfl
    rw [hf]
    have hb : PostFn.build_headers
        [("traceparent", TraceContextPropagator.encodeTraceparent c)] =
        some [("traceparent", TraceContextPropagator.encodeTraceparent c)] := by
      unfold PostFn.build_headers
      rw [traceparent_valid_header_name, encode_valid_header_value c]
      rfl
    simp only [hb]
    cases httpResult <;> rfl
